import Mathlib

/-!
Verification of the credit scoring service: a shallow embedding of the
scorecard function and `/predict` response of `app-checkpoint.py`, and of the
feature mapper, eligibility rule engine and result-display branch of
`dashboard.py`, with theorems settling the specified properties.

Numeric values are modelled with `ℚ`; the Python `int(...)` conversion
(truncation toward zero) is modelled by `pyInt`.
-/

namespace CreditScoring

/-- Python `int(q)` on a real number: truncation toward zero. -/
def pyInt (q : ℚ) : ℤ :=
  if 0 ≤ q then ⌊q⌋ else ⌈q⌉

/-- The scorecard function of `app-checkpoint.py`:
`score = 300 + (600 * (1 - prob_of_default)); return int(score)`. -/
def probability_to_score (prob_of_default : ℚ) : ℤ :=
  pyInt (300 + 600 * (1 - prob_of_default))

/-- The JSON body returned by the `/predict` endpoint. -/
structure PredictionResult where
  probability_of_default : ℚ
  credit_score : ℤ
  deriving DecidableEq

/-- The `/predict` endpoint of `app-checkpoint.py`, seen from the model
boundary: given the probability of default produced by the classifier, it
returns that probability together with `probability_to_score` of it. -/
def predict (prob_default : ℚ) : PredictionResult :=
  { probability_of_default := prob_default
    credit_score := probability_to_score prob_default }

/-- On nonnegative arguments `pyInt` is the floor. -/
theorem pyInt_eq_floor (q : ℚ) (h : 0 ≤ q) : pyInt q = ⌊q⌋ := by
  simp [pyInt, h]

/-- C1 counterexample: at model probability `1/1200` the service response has
`credit_score = 899` but `300 + round (600 * (1 - probability)) = 900`, so the
claimed rounding invariant fails on the returned pair. -/
theorem predict_round_invariant_counterexample :
    (predict (1/1200)).credit_score ≠
      300 + round (600 * (1 - (predict (1/1200)).probability_of_default)) := by
  have h1 : (predict (1/1200)).credit_score = 899 := by
    norm_num [predict, probability_to_score, pyInt]
  have h2 : round (600 * (1 - (predict (1/1200)).probability_of_default)) = 600 := by
    norm_num [predict, round_eq]
  rw [h1, h2]
  decide

/-- C1 (amended): for every prediction the service returns on a model
probability in `[0,1]`, the response satisfies
`credit_score = 300 + ⌊600 * (1 - probability_of_default)⌋` (floor, not
round-to-nearest). -/
theorem predict_floor_invariant (p : ℚ) (h0 : 0 ≤ p) (h1 : p ≤ 1) :
    (predict p).credit_score =
      300 + ⌊600 * (1 - (predict p).probability_of_default)⌋ := by
  show probability_to_score p = 300 + ⌊600 * (1 - p)⌋
  unfold probability_to_score
  rw [pyInt_eq_floor _ (by nlinarith)]
  rw [show (300 : ℚ) + 600 * (1 - p) = ((300 : ℤ) : ℚ) + 600 * (1 - p) by norm_num]
  rw [Int.floor_int_add]

/-- Witness for the amended C1 theorem at the concrete probability `1/1200`. -/
theorem predict_floor_invariant_witness :
    (predict (1/1200)).credit_score =
      300 + ⌊600 * (1 - (predict (1/1200)).probability_of_default)⌋ :=
  predict_floor_invariant (1/1200) (by norm_num) (by norm_num)

/-- C3: for every probability `p ∈ [0,1]`,
`probability_to_score p = ⌊300 + 600 * (1 - p)⌋`; in particular
`probability_to_score 0 = 900` and `probability_to_score 1 = 300`. -/
theorem probability_to_score_eq_floor :
    (∀ p : ℚ, 0 ≤ p → p ≤ 1 →
      probability_to_score p = ⌊(300 : ℚ) + 600 * (1 - p)⌋) ∧
    probability_to_score 0 = 900 ∧ probability_to_score 1 = 300 := by
  refine ⟨fun p h0 h1 => ?_,
    by norm_num [probability_to_score, pyInt],
    by norm_num [probability_to_score, pyInt]⟩
  unfold probability_to_score
  exact pyInt_eq_floor _ (by nlinarith)

/-- Witness for C3 at the concrete probability `1/2`. -/
theorem probability_to_score_eq_floor_witness :
    probability_to_score (1/2) = ⌊(300 : ℚ) + 600 * (1 - 1/2)⌋ :=
  probability_to_score_eq_floor.1 (1/2) (by norm_num) (by norm_num)

/-- C4: for every `p ∈ [0,1]` the score is an integer in `[300, 900]`, and
the score is monotonically non-increasing in the probability. -/
theorem probability_to_score_bounds_and_antitone :
    (∀ p : ℚ, 0 ≤ p → p ≤ 1 →
      300 ≤ probability_to_score p ∧ probability_to_score p ≤ 900) ∧
    (∀ p1 p2 : ℚ, 0 ≤ p1 → p1 ≤ p2 → p2 ≤ 1 →
      probability_to_score p2 ≤ probability_to_score p1) := by
  constructor
  · intro p h0 h1
    unfold probability_to_score
    rw [pyInt_eq_floor _ (by nlinarith)]
    constructor
    · exact Int.le_floor.mpr (by push_cast; nlinarith)
    · have h := Int.floor_le_floor
        (show (300 : ℚ) + 600 * (1 - p) ≤ ((900 : ℤ) : ℚ) by push_cast; nlinarith)
      simpa using h
  · intro p1 p2 h0 h12 h2
    unfold probability_to_score
    rw [pyInt_eq_floor _ (by nlinarith), pyInt_eq_floor _ (by nlinarith)]
    exact Int.floor_le_floor (by nlinarith)

/-- The user inputs collected by the dashboard form (the `user_inputs`
dictionary of `dashboard.py`). -/
structure ApplicantInput where
  cibil : ℚ
  age : ℚ
  emp : ℚ
  income : ℚ
  loan_amount : ℚ
  annuity : ℚ
  has_prev_loans : Bool
  prev_loan_count : ℚ
  prev_outstanding_amt : ℚ
  prev_remaining_emi : ℚ

/-- One rule of `get_rejection_analysis_and_suggestions`: the source pattern
`if cond: reasons.append(r); suggestions.append(s)` on the pair of
accumulated lists. -/
def addRule (cond : Prop) [Decidable cond] (r s : String)
    (acc : List String × List String) : List String × List String :=
  if cond then (acc.1 ++ [r], acc.2 ++ [s]) else acc

/-- The rule engine `get_rejection_analysis_and_suggestions` of
`dashboard.py`: each rule appends one reason and one suggestion to the two
accumulated lists; a fallback pair is appended when no rule fired. -/
def get_rejection_analysis_and_suggestions (inputs : ApplicantInput) :
    List String × List String :=
  let acc1 := addRule (inputs.cibil < 650) "Low CIBIL Score"
    "Improve your CIBIL score by paying all existing bills and EMIs on time without any delays."
    ([], [])
  let annual_emi := inputs.annuity * 12
  let dti_ratio := if inputs.income > 0 then annual_emi / inputs.income else (1 : ℚ)
  let acc2 := addRule ( dti_ratio > 0.5) "High Debt-to-Income Ratio"
    "The proposed monthly payment is high for your current income. Consider reducing the loan amount or extending the loan tenure to lower the EMI."
    acc1
  let acc3 := addRule (inputs.emp < 1) "Short Employment History"
    "Lenders prefer applicants with a stable employment history of at least 1-2 years. Building a longer track record at your current job will help."
    acc2
  let acc4 := addRule (inputs.loan_amount > inputs.income * 5)
    "High Loan Amount Relative to Income"
    "The requested loan amount is very high compared to your annual income."
    acc3
  let acc5 :=
    if inputs.has_prev_loans then
      let acc4a := addRule (inputs.prev_loan_count > 3) "High Number of Existing Loans"
        "Having multiple active loans can indicate high financial leverage. It\x27s advisable to close some existing loans before applying for new ones."
        acc4
      addRule (inputs.prev_outstanding_amt > inputs.income * 2) "High Existing Debt Burden"
        "Your existing outstanding loan amount is high compared to your income. Reducing this debt will significantly improve your eligibility."
        acc4a
    else acc4
  addRule (acc5.1 = []) "Overall Profile Risk"
    "While individual factors may be acceptable, your overall profile combination is assessed as high-risk by the model. Improving your CIBIL score is the most effective way to boost your eligibility."
    acc5

/-- The fixed maintenance-suggestion list `get_approval_suggestions` of
`dashboard.py`. -/
def get_approval_suggestions : List String :=
  ["Continue paying all your bills and EMIs on time without fail.",
   "Keep your credit utilization ratio low (ideally below 30%).",
   "Avoid applying for multiple new loans or credit cards in a short period.",
   "Regularly review your full credit report for any errors."]

/-- Keys of a Python dictionary modelled as an association list. -/
def dictKeys (d : List (String × ℚ)) : List String := d.map Prod.fst

/-- Python dictionary lookup `d[k]`: the value of the first binding of `k`. -/
def dictGet (d : List (String × ℚ)) (k : String) : Option ℚ :=
  (d.find? (fun p => p.1 == k)).map Prod.snd

/-- Python dictionary assignment `d[k] = v`: overwrites the binding when the
key is present and appends a new binding otherwise. -/
def dictSet (d : List (String × ℚ)) (k : String) (v : ℚ) : List (String × ℚ) :=
  if k ∈ dictKeys d then d.map (fun p => if p.1 = k then (k, v) else p)
  else d ++ [(k, v)]

/-- The feature mapper `map_to_full_payload` of `dashboard.py`: zero-initializes every training
column and then assigns the mapped user inputs; the externally loaded
`training_columns` list is made an explicit parameter. -/
def map_to_full_payload (inputs : ApplicantInput) (training_columns : List String) :
    List (String × ℚ) :=
  let base := training_columns.map (fun col => (col, (0 : ℚ)))
  let base := dictSet base "CIBIL_SCORE" ((inputs.cibil - 300) / 600)
  let base := dictSet base "DAYS_BIRTH" (-inputs.age * 365)
  let base := dictSet base "DAYS_EMPLOYED" (-inputs.emp * 365)
  let base := dictSet base "AMT_INCOME_TOTAL" inputs.income
  let base := dictSet base "AMT_CREDIT" inputs.loan_amount
  let base := dictSet base "AMT_ANNUITY" inputs.annuity
  if inputs.has_prev_loans then
    let base := dictSet base "PREV_LOAN_COUNT" inputs.prev_loan_count
    let base := dictSet base "PREV_AMT_OUTSTANDING" inputs.prev_outstanding_amt
    dictSet base "PREV_REMAINING_EMI" inputs.prev_remaining_emi
  else base

/-- What the dashboard shows for a prediction result. -/
structure DisplayOutcome where
  eligibility : String
  reasons : List String
  suggestions : List String
  deriving DecidableEq

/-- The result-display branch of `dashboard.py` (the `score >= 670` test):
eligible applicants get the fixed approval suggestions and no reasons,
ineligible ones get the rule engine output on the submitted inputs. -/
def display_results (score : ℤ) (inputs : ApplicantInput) : DisplayOutcome :=
  if score ≥ 670 then
    { eligibility := "Eligible for Loan"
      reasons := []
      suggestions := get_approval_suggestions }
  else
    { eligibility := "Not Eligible for Loan"
      reasons := (get_rejection_analysis_and_suggestions inputs).1
      suggestions := (get_rejection_analysis_and_suggestions inputs).2 }

/-- Witness for C4 at the concrete probabilities `1/3 ≤ 2/3`. -/
theorem probability_to_score_bounds_and_antitone_witness :
    (300 ≤ probability_to_score (1/3) ∧ probability_to_score (1/3) ≤ 900) ∧
    probability_to_score (2/3) ≤ probability_to_score (1/3) :=
  ⟨probability_to_score_bounds_and_antitone.1 (1/3) (by norm_num) (by norm_num),
   probability_to_score_bounds_and_antitone.2 (1/3) (2/3)
     (by norm_num) (by norm_num) (by norm_num)⟩

/-- A rule preserves the reasons-suggestions length balance. -/
theorem addRule_length_eq {cond : Prop} [Decidable cond] (r s : String)
    (acc : List String × List String) (h : acc.1.length = acc.2.length) :
    (addRule cond r s acc).1.length = (addRule cond r s acc).2.length := by
  unfold addRule
  split <;> simp [h]

/-- A rule preserves membership in the accumulated reasons. -/
theorem addRule_mem_of_mem {cond : Prop} [Decidable cond] (r s x : String)
    (acc : List String × List String) (h : x ∈ acc.1) :
    x ∈ (addRule cond r s acc).1 := by
  unfold addRule
  split <;> simp [h]

/-- A rule whose condition holds puts its reason in the list. -/
theorem addRule_mem_self {cond : Prop} [Decidable cond] (r s : String)
    (acc : List String × List String) (h : cond) :
    r ∈ (addRule cond r s acc).1 := by
  unfold addRule
  rw [if_pos h]
  simp

/-- A rule whose condition fails leaves the accumulator unchanged. -/
theorem addRule_neg {cond : Prop} [Decidable cond] (h : ¬cond) (r s : String)
    (acc : List String × List String) : addRule cond r s acc = acc :=
  if_neg h

/-- A rule extends a sublist bound on the reasons by its own reason. -/
theorem addRule_fst_sublist {cond : Prop} [Decidable cond] {r s : String}
    {acc : List String × List String} (L : List String)
    (h : List.Sublist acc.1 L) :
    List.Sublist (addRule cond r s acc).1 (L ++ [r]) := by
  unfold addRule
  split
  · exact h.append (List.Sublist.refl [r])
  · exact h.trans (List.sublist_append_left L [r])

/-- The fallback rule guarantees a non-empty reasons list. -/
theorem addRule_fallback_ne_nil (r s : String) (acc : List String × List String) :
    (addRule (acc.1 = []) r s acc).1 ≠ [] := by
  unfold addRule
  split
  · next h => simp [h]
  · next h => exact h

/-- The fallback rule keeps the reasons list within bounds and duplicate-free
whenever the accumulated reasons are a sublist of a short duplicate-free
list not containing the fallback reason. -/
theorem addRule_fallback_bounds_nodup (r s : String)
    (acc : List String × List String) (L : List String)
    (hsub : List.Sublist acc.1 L) (hlen : L.length ≤ 6) (hnd : L.Nodup) :
    1 ≤ (addRule (acc.1 = []) r s acc).1.length ∧
    (addRule (acc.1 = []) r s acc).1.length ≤ 6 ∧
    (addRule (acc.1 = []) r s acc).1.Nodup := by
  unfold addRule
  split
  · next h => simp [h]
  · next h =>
    have hpos : 0 < acc.1.length := List.length_pos.mpr h
    exact ⟨hpos, le_trans hsub.length_le hlen, hnd.sublist hsub⟩

/-- C9: for every applicant input the rule engine returns reasons and
suggestions lists of equal length, so suggestion `i` pairs with reason `i`. -/
theorem engine_lists_length_eq (i : ApplicantInput) :
    (get_rejection_analysis_and_suggestions i).1.length =
    (get_rejection_analysis_and_suggestions i).2.length := by
  simp only [get_rejection_analysis_and_suggestions]
  apply addRule_length_eq
  by_cases hp : i.has_prev_loans = true
  · simp only [hp, if_true]
    apply addRule_length_eq
    apply addRule_length_eq
    apply addRule_length_eq
    apply addRule_length_eq
    apply addRule_length_eq
    apply addRule_length_eq
    rfl
  · simp only [hp, if_false]
    apply addRule_length_eq
    apply addRule_length_eq
    apply addRule_length_eq
    apply addRule_length_eq
    rfl

/-- C6: the rule engine never returns an empty reasons list, and when no
individual rule fires it returns exactly the single pair
("Overall Profile Risk", its suggestion). -/
theorem engine_nonempty_and_fallback (i : ApplicantInput) :
    (get_rejection_analysis_and_suggestions i).1 ≠ [] ∧
    (¬(i.cibil < 650) →
     ¬((if i.income > 0 then i.annuity * 12 / i.income else (1 : ℚ)) > 0.5) →
     ¬(i.emp < 1) →
     ¬(i.loan_amount > i.income * 5) →
     (i.has_prev_loans = true → ¬(i.prev_loan_count > 3)) →
     (i.has_prev_loans = true → ¬(i.prev_outstanding_amt > i.income * 2)) →
     get_rejection_analysis_and_suggestions i =
       (["Overall Profile Risk"],
        ["While individual factors may be acceptable, your overall profile combination is assessed as high-risk by the model. Improving your CIBIL score is the most effective way to boost your eligibility."])) := by
  constructor
  · simp only [get_rejection_analysis_and_suggestions]
    apply addRule_fallback_ne_nil
  · intro h1 h2 h3 h4 h5 h6
    simp only [get_rejection_analysis_and_suggestions]
    by_cases hp : i.has_prev_loans = true
    · simp only [hp, if_true, addRule_neg h1, addRule_neg h2, addRule_neg h3,
        addRule_neg h4, addRule_neg (h5 hp), addRule_neg (h6 hp)]
      simp [addRule]
    · simp only [hp, if_false, addRule_neg h1, addRule_neg h2, addRule_neg h3,
        addRule_neg h4]
      simp [addRule]

/-- Witness for C6 at the concrete no-rule-fires input of the spec
(cibil 750, income 1000000, annuity 10000, loan 2000000, emp 5). -/
theorem engine_nonempty_and_fallback_witness :
    get_rejection_analysis_and_suggestions
        ⟨750, 30, 5, 1000000, 2000000, 10000, false, 0, 0, 0⟩ =
      (["Overall Profile Risk"],
       ["While individual factors may be acceptable, your overall profile combination is assessed as high-risk by the model. Improving your CIBIL score is the most effective way to boost your eligibility."]) :=
  (engine_nonempty_and_fallback ⟨750, 30, 5, 1000000, 2000000, 10000, false, 0, 0, 0⟩).2
    (by norm_num) (by norm_num) (by norm_num) (by norm_num)
    (by intro h; exact absurd h (by simp)) (by intro h; exact absurd h (by simp))

/-- C7: zero income makes the debt-to-income sentinel fire, so the DTI
reason appears among the returned reasons regardless of the annuity. -/
theorem engine_zero_income_dti_fires (i : ApplicantInput) (h : i.income = 0) :
    "High Debt-to-Income Ratio" ∈ (get_rejection_analysis_and_suggestions i).1 := by
  simp only [get_rejection_analysis_and_suggestions]
  apply addRule_mem_of_mem
  by_cases hp : i.has_prev_loans = true
  · simp only [hp, if_true]
    apply addRule_mem_of_mem
    apply addRule_mem_of_mem
    apply addRule_mem_of_mem
    apply addRule_mem_of_mem
    apply addRule_mem_self
    rw [h]
    norm_num
  · simp only [hp, if_false]
    apply addRule_mem_of_mem
    apply addRule_mem_of_mem
    apply addRule_mem_self
    rw [h]
    norm_num

/-- Witness for C7 at a concrete zero-income input. -/
theorem engine_zero_income_dti_fires_witness :
    "High Debt-to-Income Ratio" ∈
      (get_rejection_analysis_and_suggestions
        ⟨700, 30, 5, 0, 100000, 5000, false, 0, 0, 0⟩).1 :=
  engine_zero_income_dti_fires ⟨700, 30, 5, 0, 100000, 5000, false, 0, 0, 0⟩ rfl

/-- C10: the reasons list always has between 1 and 6 entries and never
contains a duplicate reason string. -/
theorem engine_reasons_bounds_nodup (i : ApplicantInput) :
    1 ≤ (get_rejection_analysis_and_suggestions i).1.length ∧
    (get_rejection_analysis_and_suggestions i).1.length ≤ 6 ∧
    (get_rejection_analysis_and_suggestions i).1.Nodup := by
  simp only [get_rejection_analysis_and_suggestions]
  refine addRule_fallback_bounds_nodup _ _ _
    ["Low CIBIL Score", "High Debt-to-Income Ratio", "Short Employment History",
     "High Loan Amount Relative to Income", "High Number of Existing Loans",
     "High Existing Debt Burden"] ?_ (by decide) (by decide)
  by_cases hp : i.has_prev_loans = true
  · simp only [hp, if_true]
    refine addRule_fst_sublist
      ["Low CIBIL Score", "High Debt-to-Income Ratio", "Short Employment History",
       "High Loan Amount Relative to Income", "High Number of Existing Loans"] ?_
    refine addRule_fst_sublist
      ["Low CIBIL Score", "High Debt-to-Income Ratio", "Short Employment History",
       "High Loan Amount Relative to Income"] ?_
    refine addRule_fst_sublist
      ["Low CIBIL Score", "High Debt-to-Income Ratio", "Short Employment History"] ?_
    refine addRule_fst_sublist ["Low CIBIL Score", "High Debt-to-Income Ratio"] ?_
    refine addRule_fst_sublist ["Low CIBIL Score"] ?_
    refine addRule_fst_sublist [] ?_
    exact List.Sublist.refl []
  · simp only [hp, if_false]
    refine List.Sublist.trans ?_
      (List.sublist_append_left
        ["Low CIBIL Score", "High Debt-to-Income Ratio", "Short Employment History",
         "High Loan Amount Relative to Income"]
        ["High Number of Existing Loans", "High Existing Debt Burden"])
    refine addRule_fst_sublist
      ["Low CIBIL Score", "High Debt-to-Income Ratio", "Short Employment History"] ?_
    refine addRule_fst_sublist ["Low CIBIL Score", "High Debt-to-Income Ratio"] ?_
    refine addRule_fst_sublist ["Low CIBIL Score"] ?_
    refine addRule_fst_sublist [] ?_
    exact List.Sublist.refl []

/-- C5: a score of at least 670 is shown as eligible with the fixed approval
suggestions and no reasons; a score below 670 is shown as not eligible with
exactly the reasons and suggestions of the rule engine for the submitted input. -/
theorem display_results_branches (s : ℤ) (i : ApplicantInput) :
    (670 ≤ s → display_results s i =
      { eligibility := "Eligible for Loan"
        reasons := []
        suggestions := get_approval_suggestions }) ∧
    (s < 670 → display_results s i =
      { eligibility := "Not Eligible for Loan"
        reasons := (get_rejection_analysis_and_suggestions i).1
        suggestions := (get_rejection_analysis_and_suggestions i).2 }) := by
  constructor
  · intro h
    unfold display_results
    rw [if_pos h]
  · intro h
    unfold display_results
    rw [if_neg (by omega)]

/-- Witness for C5 at the concrete scores 700 and 600. -/
theorem display_results_branches_witness :
    display_results 700 ⟨600, 30, 5, 500000, 1000000, 25000, false, 0, 0, 0⟩ =
      { eligibility := "Eligible for Loan"
        reasons := []
        suggestions := get_approval_suggestions } ∧
    display_results 600 ⟨600, 30, 5, 500000, 1000000, 25000, false, 0, 0, 0⟩ =
      { eligibility := "Not Eligible for Loan"
        reasons := (get_rejection_analysis_and_suggestions
          ⟨600, 30, 5, 500000, 1000000, 25000, false, 0, 0, 0⟩).1
        suggestions := (get_rejection_analysis_and_suggestions
          ⟨600, 30, 5, 500000, 1000000, 25000, false, 0, 0, 0⟩).2 } :=
  ⟨(display_results_branches 700 _).1 (by norm_num),
   (display_results_branches 600 _).2 (by norm_num)⟩

/-- Replacing the bindings of one key does not change the key list. -/
theorem dictKeys_map_replace (d : List (String × ℚ)) (k : String) (v : ℚ) :
    dictKeys (d.map (fun p => if p.1 = k then (k, v) else p)) = dictKeys d := by
  induction d with
  | nil => rfl
  | cons p d ih =>
    simp only [dictKeys, List.map_cons] at ih ⊢
    by_cases hp : p.1 = k
    · simp [hp, ih]
    · simp [hp, ih]

/-- Assigning a key already mapped to `cols` keeps the key list `cols`. -/
theorem dictKeys_dictSet_eq {d : List (String × ℚ)} {cols : List String}
    {k : String} {v : ℚ} (h : dictKeys d = cols) (hm : k ∈ cols) :
    dictKeys (dictSet d k v) = cols := by
  rw [dictSet, if_pos (h ▸ hm), dictKeys_map_replace, h]

/-- Lookup on a non-empty dictionary: the head binding wins. -/
theorem dictGet_cons (p : String × ℚ) (d : List (String × ℚ)) (k : String) :
    dictGet (p :: d) k = if p.1 = k then some p.2 else dictGet d k := by
  by_cases h : p.1 = k
  · simp only [dictGet]
    rw [List.find?_cons_of_pos (p := fun q : String × ℚ => q.1 == k) _
      (by simpa using h), if_pos h]
    rfl
  · simp only [dictGet]
    rw [List.find?_cons_of_neg (p := fun q : String × ℚ => q.1 == k) _
      (by simpa using h), if_neg h]

/-- Overwriting the bindings of key `k` makes lookup of `k` return the new
value, provided `k` was present. -/
theorem dictGet_map_replace_self {k : String} (v : ℚ) (d : List (String × ℚ))
    (h : k ∈ dictKeys d) :
    dictGet (d.map (fun p => if p.1 = k then (k, v) else p)) k = some v := by
  induction d with
  | nil => simp [dictKeys] at h
  | cons p d ih =>
    simp only [List.map_cons]
    by_cases hp : p.1 = k
    · rw [show (if p.1 = k then (k, v) else p) = (k, v) from if_pos hp, dictGet_cons]
      simp
    · rw [show (if p.1 = k then (k, v) else p) = p from if_neg hp, dictGet_cons,
        if_neg hp]
      apply ih
      simp only [dictKeys, List.map_cons, List.mem_cons] at h
      rcases h with h | h
      · exact absurd h.symm hp
      · exact h

/-- Overwriting the bindings of key `k` does not affect lookups of `x ≠ k`. -/
theorem dictGet_map_replace_ne {x k : String} (hne : x ≠ k) (v : ℚ)
    (d : List (String × ℚ)) :
    dictGet (d.map (fun p => if p.1 = k then (k, v) else p)) x = dictGet d x := by
  induction d with
  | nil => rfl
  | cons p d ih =>
    simp only [List.map_cons]
    by_cases hp : p.1 = k
    · rw [show (if p.1 = k then (k, v) else p) = (k, v) from if_pos hp, dictGet_cons,
        if_neg (show ¬((k, v).1 = x) from fun hc => hne hc.symm), dictGet_cons,
        if_neg (fun hc : p.1 = x => hne (hc.symm.trans hp)), ih]
    · rw [show (if p.1 = k then (k, v) else p) = p from if_neg hp, dictGet_cons,
        dictGet_cons, ih]

/-- Appending a fresh binding makes lookup of its key return its value,
provided the key was absent. -/
theorem dictGet_append_single_self (k : String) (v : ℚ) (d : List (String × ℚ))
    (h : k ∉ dictKeys d) :
    dictGet (d ++ [(k, v)]) k = some v := by
  induction d with
  | nil =>
    rw [List.nil_append, dictGet_cons]
    simp
  | cons p d ih =>
    have h1 : ¬(k = p.1) ∧ k ∉ dictKeys d := by
      simpa [dictKeys, not_or] using h
    rw [List.cons_append, dictGet_cons, if_neg (fun hc => h1.1 hc.symm)]
    exact ih h1.2

/-- Appending a binding for key `k` does not affect lookups of `x ≠ k`. -/
theorem dictGet_append_single_ne {x k : String} (hne : x ≠ k) (v : ℚ)
    (d : List (String × ℚ)) :
    dictGet (d ++ [(k, v)]) x = dictGet d x := by
  induction d with
  | nil =>
    rw [List.nil_append, dictGet_cons, if_neg (show ¬((k, v).1 = x) from
      fun hc => hne hc.symm)]
  | cons p d ih =>
    rw [List.cons_append, dictGet_cons, dictGet_cons, ih]

/-- Assignment followed by lookup of the same key yields the new value. -/
theorem dictGet_dictSet_self (d : List (String × ℚ)) (k : String) (v : ℚ) :
    dictGet (dictSet d k v) k = some v := by
  rw [dictSet]
  by_cases h : k ∈ dictKeys d
  · rw [if_pos h]
    exact dictGet_map_replace_self v d h
  · rw [if_neg h]
    exact dictGet_append_single_self k v d h

/-- Assignment does not affect lookups of other keys. -/
theorem dictGet_dictSet_ne {x k : String} (hne : x ≠ k)
    (d : List (String × ℚ)) (v : ℚ) :
    dictGet (dictSet d k v) x = dictGet d x := by
  rw [dictSet]
  by_cases h : k ∈ dictKeys d
  · rw [if_pos h]
    exact dictGet_map_replace_ne hne v d
  · rw [if_neg h]
    exact dictGet_append_single_ne hne v d

/-- Lookup in the zero-initialized base dictionary. -/
theorem dictGet_base (cols : List String) (k : String) (h : k ∈ cols) :
    dictGet (cols.map (fun col => (col, (0 : ℚ)))) k = some 0 := by
  induction cols with
  | nil => simp at h
  | cons c cols ih =>
    simp only [List.map_cons]
    rw [dictGet_cons]
    by_cases hc : c = k
    · rw [if_pos (show ((c, (0 : ℚ)).1 = k) from hc)]
    · rw [if_neg (show ¬((c, (0 : ℚ)).1 = k) from hc)]
      apply ih
      rcases List.mem_cons.mp h with h | h
      · exact absurd h.symm hc
      · exact h

/-- The zero-initialized base dictionary has exactly the given keys. -/
theorem dictKeys_base (cols : List String) :
    dictKeys (cols.map (fun col => (col, (0 : ℚ)))) = cols := by
  induction cols with
  | nil => rfl
  | cons c cols ih =>
    show ((c, (0 : ℚ)) :: cols.map (fun col => (col, (0 : ℚ)))).map Prod.fst =
      c :: cols
    rw [List.map_cons]
    exact congrArg (List.cons c) ih

/-- C2 counterexample: with an empty known-column list the payload still
gains the key "CIBIL_SCORE" (Python dict assignment inserts missing keys),
so its key set is not exactly the known columns. -/
theorem map_to_full_payload_keys_counterexample :
    "CIBIL_SCORE" ∈ dictKeys (map_to_full_payload
      ⟨650, 30, 5, 0, 0, 0, false, 0, 0, 0⟩ []) ∧
    "CIBIL_SCORE" ∉ ([] : List String) := by
  constructor
  · decide
  · decide

set_option maxHeartbeats 1000000 in
/-- C2 (amended): when the known-column list contains the nine explicitly
assigned column names, the payload keys are exactly the known columns, the
six always-set columns carry the mapped input values, the three
previous-loan columns carry the inputs when has_prev_loans is true and 0
otherwise, and every other known column is 0. -/
theorem map_to_full_payload_spec (i : ApplicantInput) (cols : List String)
    (h1 : "CIBIL_SCORE" ∈ cols) (h2 : "DAYS_BIRTH" ∈ cols)
    (h3 : "DAYS_EMPLOYED" ∈ cols) (h4 : "AMT_INCOME_TOTAL" ∈ cols)
    (h5 : "AMT_CREDIT" ∈ cols) (h6 : "AMT_ANNUITY" ∈ cols)
    (h7 : "PREV_LOAN_COUNT" ∈ cols) (h8 : "PREV_AMT_OUTSTANDING" ∈ cols)
    (h9 : "PREV_REMAINING_EMI" ∈ cols) :
    dictKeys (map_to_full_payload i cols) = cols ∧
    dictGet (map_to_full_payload i cols) "CIBIL_SCORE" =
      some ((i.cibil - 300) / 600) ∧
    dictGet (map_to_full_payload i cols) "DAYS_BIRTH" = some (-i.age * 365) ∧
    dictGet (map_to_full_payload i cols) "DAYS_EMPLOYED" = some (-i.emp * 365) ∧
    dictGet (map_to_full_payload i cols) "AMT_INCOME_TOTAL" = some i.income ∧
    dictGet (map_to_full_payload i cols) "AMT_CREDIT" = some i.loan_amount ∧
    dictGet (map_to_full_payload i cols) "AMT_ANNUITY" = some i.annuity ∧
    dictGet (map_to_full_payload i cols) "PREV_LOAN_COUNT" =
      some (if i.has_prev_loans = true then i.prev_loan_count else 0) ∧
    dictGet (map_to_full_payload i cols) "PREV_AMT_OUTSTANDING" =
      some (if i.has_prev_loans = true then i.prev_outstanding_amt else 0) ∧
    dictGet (map_to_full_payload i cols) "PREV_REMAINING_EMI" =
      some (if i.has_prev_loans = true then i.prev_remaining_emi else 0) ∧
    (∀ k, k ∈ cols →
      k ∉ ["CIBIL_SCORE", "DAYS_BIRTH", "DAYS_EMPLOYED", "AMT_INCOME_TOTAL",
        "AMT_CREDIT", "AMT_ANNUITY", "PREV_LOAN_COUNT", "PREV_AMT_OUTSTANDING",
        "PREV_REMAINING_EMI"] →
      dictGet (map_to_full_payload i cols) k = some 0) := by
  by_cases hp : i.has_prev_loans = true
  · simp only [map_to_full_payload, hp, if_true]
    refine ⟨?_, ?_, ?_, ?_, ?_, ?_, ?_, ?_, ?_, ?_, ?_⟩
    · refine dictKeys_dictSet_eq (dictKeys_dictSet_eq (dictKeys_dictSet_eq
        (dictKeys_dictSet_eq (dictKeys_dictSet_eq (dictKeys_dictSet_eq
        (dictKeys_dictSet_eq (dictKeys_dictSet_eq (dictKeys_dictSet_eq
        (dictKeys_base cols) h1) h2) h3) h4) h5) h6) h7) h8) h9
    · rw [dictGet_dictSet_ne (by decide), dictGet_dictSet_ne (by decide),
        dictGet_dictSet_ne (by decide), dictGet_dictSet_ne (by decide),
        dictGet_dictSet_ne (by decide), dictGet_dictSet_ne (by decide),
        dictGet_dictSet_ne (by decide), dictGet_dictSet_ne (by decide),
        dictGet_dictSet_self]
    · rw [dictGet_dictSet_ne (by decide), dictGet_dictSet_ne (by decide),
        dictGet_dictSet_ne (by decide), dictGet_dictSet_ne (by decide),
        dictGet_dictSet_ne (by decide), dictGet_dictSet_ne (by decide),
        dictGet_dictSet_ne (by decide), dictGet_dictSet_self]
    · rw [dictGet_dictSet_ne (by decide), dictGet_dictSet_ne (by decide),
        dictGet_dictSet_ne (by decide), dictGet_dictSet_ne (by decide),
        dictGet_dictSet_ne (by decide), dictGet_dictSet_ne (by decide),
        dictGet_dictSet_self]
    · rw [dictGet_dictSet_ne (by decide), dictGet_dictSet_ne (by decide),
        dictGet_dictSet_ne (by decide), dictGet_dictSet_ne (by decide),
        dictGet_dictSet_ne (by decide), dictGet_dictSet_self]
    · rw [dictGet_dictSet_ne (by decide), dictGet_dictSet_ne (by decide),
        dictGet_dictSet_ne (by decide), dictGet_dictSet_ne (by decide),
        dictGet_dictSet_self]
    · rw [dictGet_dictSet_ne (by decide), dictGet_dictSet_ne (by decide),
        dictGet_dictSet_ne (by decide), dictGet_dictSet_self]
    · rw [dictGet_dictSet_ne (by decide), dictGet_dictSet_ne (by decide),
        dictGet_dictSet_self]
    · rw [dictGet_dictSet_ne (by decide), dictGet_dictSet_self]
    · rw [dictGet_dictSet_self]
    · intro k hk hnot
      simp only [List.mem_cons, List.mem_singleton, not_or] at hnot
      obtain ⟨n1, n2, n3, n4, n5, n6, n7, n8, n9, -⟩ := hnot
      rw [dictGet_dictSet_ne n9, dictGet_dictSet_ne n8, dictGet_dictSet_ne n7,
        dictGet_dictSet_ne n6, dictGet_dictSet_ne n5, dictGet_dictSet_ne n4,
        dictGet_dictSet_ne n3, dictGet_dictSet_ne n2, dictGet_dictSet_ne n1]
      exact dictGet_base cols k hk
  · rw [Bool.not_eq_true] at hp
    simp only [map_to_full_payload, hp, Bool.false_eq_true, if_false]
    refine ⟨?_, ?_, ?_, ?_, ?_, ?_, ?_, ?_, ?_, ?_, ?_⟩
    · refine dictKeys_dictSet_eq (dictKeys_dictSet_eq (dictKeys_dictSet_eq
        (dictKeys_dictSet_eq (dictKeys_dictSet_eq (dictKeys_dictSet_eq
        (dictKeys_base cols) h1) h2) h3) h4) h5) h6
    · rw [dictGet_dictSet_ne (by decide), dictGet_dictSet_ne (by decide),
        dictGet_dictSet_ne (by decide), dictGet_dictSet_ne (by decide),
        dictGet_dictSet_ne (by decide), dictGet_dictSet_self]
    · rw [dictGet_dictSet_ne (by decide), dictGet_dictSet_ne (by decide),
        dictGet_dictSet_ne (by decide), dictGet_dictSet_ne (by decide),
        dictGet_dictSet_self]
    · rw [dictGet_dictSet_ne (by decide), dictGet_dictSet_ne (by decide),
        dictGet_dictSet_ne (by decide), dictGet_dictSet_self]
    · rw [dictGet_dictSet_ne (by decide), dictGet_dictSet_ne (by decide),
        dictGet_dictSet_self]
    · rw [dictGet_dictSet_ne (by decide), dictGet_dictSet_self]
    · rw [dictGet_dictSet_self]
    · rw [dictGet_dictSet_ne (by decide), dictGet_dictSet_ne (by decide),
        dictGet_dictSet_ne (by decide), dictGet_dictSet_ne (by decide),
        dictGet_dictSet_ne (by decide), dictGet_dictSet_ne (by decide)]
      exact dictGet_base cols _ h7
    · rw [dictGet_dictSet_ne (by decide), dictGet_dictSet_ne (by decide),
        dictGet_dictSet_ne (by decide), dictGet_dictSet_ne (by decide),
        dictGet_dictSet_ne (by decide), dictGet_dictSet_ne (by decide)]
      exact dictGet_base cols _ h8
    · rw [dictGet_dictSet_ne (by decide), dictGet_dictSet_ne (by decide),
        dictGet_dictSet_ne (by decide), dictGet_dictSet_ne (by decide),
        dictGet_dictSet_ne (by decide), dictGet_dictSet_ne (by decide)]
      exact dictGet_base cols _ h9
    · intro k hk hnot
      simp only [List.mem_cons, List.mem_singleton, not_or] at hnot
      obtain ⟨n1, n2, n3, n4, n5, n6, n7, n8, n9, -⟩ := hnot
      rw [dictGet_dictSet_ne n6, dictGet_dictSet_ne n5, dictGet_dictSet_ne n4,
        dictGet_dictSet_ne n3, dictGet_dictSet_ne n2, dictGet_dictSet_ne n1]
      exact dictGet_base cols k hk

/-- Witness for the amended C2 theorem: the known-column list consisting of
exactly the nine assigned columns, on a concrete input with previous loans. -/
theorem map_to_full_payload_spec_witness :
    dictKeys (map_to_full_payload ⟨650, 40, 2, 100, 200, 30, true, 1, 2, 3⟩
      ["CIBIL_SCORE", "DAYS_BIRTH", "DAYS_EMPLOYED", "AMT_INCOME_TOTAL",
       "AMT_CREDIT", "AMT_ANNUITY", "PREV_LOAN_COUNT", "PREV_AMT_OUTSTANDING",
       "PREV_REMAINING_EMI"]) =
      ["CIBIL_SCORE", "DAYS_BIRTH", "DAYS_EMPLOYED", "AMT_INCOME_TOTAL",
       "AMT_CREDIT", "AMT_ANNUITY", "PREV_LOAN_COUNT", "PREV_AMT_OUTSTANDING",
       "PREV_REMAINING_EMI"] ∧
    dictGet (map_to_full_payload ⟨650, 40, 2, 100, 200, 30, true, 1, 2, 3⟩
      ["CIBIL_SCORE", "DAYS_BIRTH", "DAYS_EMPLOYED", "AMT_INCOME_TOTAL",
       "AMT_CREDIT", "AMT_ANNUITY", "PREV_LOAN_COUNT", "PREV_AMT_OUTSTANDING",
       "PREV_REMAINING_EMI"]) "CIBIL_SCORE" =
      some ((650 - 300) / 600) :=
  ⟨(map_to_full_payload_spec ⟨650, 40, 2, 100, 200, 30, true, 1, 2, 3⟩ _
      (by decide) (by decide) (by decide) (by decide) (by decide) (by decide)
      (by decide) (by decide) (by decide)).1,
   (map_to_full_payload_spec ⟨650, 40, 2, 100, 200, 30, true, 1, 2, 3⟩ _
      (by decide) (by decide) (by decide) (by decide) (by decide) (by decide)
      (by decide) (by decide) (by decide)).2.1⟩

/-- C8: at the concrete input cibil 600, income 500000, annuity 25000,
loan 1000000, emp 5, no previous loans, the rule engine reports both
"Low CIBIL Score" and "High Debt-to-Income Ratio", and at least one reason. -/
theorem engine_concrete_example :
    "Low CIBIL Score" ∈ (get_rejection_analysis_and_suggestions
      ⟨600, 30, 5, 500000, 1000000, 25000, false, 0, 0, 0⟩).1 ∧
    "High Debt-to-Income Ratio" ∈ (get_rejection_analysis_and_suggestions
      ⟨600, 30, 5, 500000, 1000000, 25000, false, 0, 0, 0⟩).1 ∧
    1 ≤ (get_rejection_analysis_and_suggestions
      ⟨600, 30, 5, 500000, 1000000, 25000, false, 0, 0, 0⟩).1.length := by
  have h : (get_rejection_analysis_and_suggestions
      ⟨600, 30, 5, 500000, 1000000, 25000, false, 0, 0, 0⟩).1 =
      ["Low CIBIL Score", "High Debt-to-Income Ratio"] := by
    simp only [get_rejection_analysis_and_suggestions]
    norm_num [addRule]
    rw [if_neg (by simp)]
  rw [h]
  refine ⟨by simp, by simp, by norm_num⟩

end CreditScoring
